import Mathlib

/-!
# Verification of the serial ingestion and recording core
# of the IOT Sign-Language Gloves desktop app

Shallow embedding of `src/src-tauri/src/main.rs`: the serial frame reader
spawned by `connect_serial`, the connection lifecycle commands
(`connect_serial`, `disconnect_serial`, `is_serial_connected`), the
recording writer `save_recording`, and the prediction pre-checks of
`predict_gesture`.

Byte streams are modelled as `List Char` (the Rust code decodes with
`String::from_utf8_lossy` before any processing; all protocol traffic is
ASCII, so we work at the character level).  File-system and network side
effects are modelled by explicit environment parameters, and Rust `f64`
arithmetic in the normalization step is modelled over `ℚ` (the inputs are
`i32` values, on which the subtraction, division and clamp used here are
exact).
-/

/-! ## Frame reader: line reassembly and frame validation

From the worker loop of `connect_serial` (main.rs lines 214-268).
-/

/-- ASCII whitespace, as trimmed by Rust's `str::trim` on protocol traffic. -/
def isAsciiWhitespace (c : Char) : Bool :=
  c = ' ' || c = '\t' || c = '\n' || c = '\r'

/-- Rust `str::trim`: drop whitespace from both ends. -/
def trimChars (cs : List Char) : List Char :=
  ((cs.dropWhile isAsciiWhitespace).reverse.dropWhile isAsciiWhitespace).reverse

/-- Rust `line.split(',')`: split into comma-separated fields.
`splitFields [] = [[]]`, matching `"".split(',')` yielding one empty field. -/
def splitFields : List Char → List (List Char)
  | [] => [[]]
  | c :: rest =>
    let fs := splitFields rest
    if c = ',' then [] :: fs
    else
      match fs with
      | [] => [[c]]
      | f :: fs2 => (c :: f) :: fs2

/-- The `while let Some(newline_pos) = buffer.find('\n')` loop of the worker
(main.rs lines 238-240): extract every complete line-feed-terminated line,
in order, and return the remaining (newline-free) tail as the new buffer. -/
def splitLines : List Char → List (List Char) × List Char
  | [] => ([], [])
  | c :: rest =>
    let (ls, b) := splitLines rest
    if c = '\n' then ([] :: ls, b)
    else
      match ls with
      | [] => ([], c :: b)
      | l :: ls2 => ((c :: l) :: ls2, b)

/-- Per-line validation (main.rs lines 239-248): trim, skip if empty, split
on commas, and emit the trimmed line exactly when it has 6 fields
(`parts.len() == 6`, the `timestamp,ch0,ch1,ch2,ch3,ch4` protocol). -/
def processLine (line : List Char) : Option (List Char) :=
  let t := trimChars line
  if t.isEmpty then none
  else if (splitFields t).length = 6 then some t
  else none

/-- One successful read in the worker (main.rs lines 232-251): append the
decoded data to the line-accumulation buffer, extract complete lines, and
emit every line that passes `processLine`.  Returns
`(new buffer, emitted sensor-data payloads)`. -/
def readIteration (buffer data : List Char) : List Char × List (List Char) :=
  let (ls, rest) := splitLines (buffer ++ data)
  (rest, ls.filterMap processLine)

/-- Outcome of `port.read(&mut serial_buf)` in one worker iteration. -/
inductive ReadResult where
  | ok (data : List Char)
  | timedOut
  | err (msg : String)
deriving DecidableEq, Repr

/-- Observable effect of one worker iteration. -/
structure WorkerStep where
  buffer : List Char
  samples : List (List Char)
  errors : List String
  continues : Bool
deriving DecidableEq, Repr

/-- One iteration of the spawned reader loop (main.rs lines 217-267),
parameterized by the `is_connected` flag it observes and the read outcome.
Returns the step's effects and the value of `is_connected` afterwards —
the loop body never writes that flag, so it is returned unchanged:

* `is_connected = false`: break, no events;
* `Ok(bytes_read)` with data: buffer/emit via `readIteration`, continue;
* `Ok(0)`: nothing to process, continue;
* timeout: no-op, continue;
* other error: emit one `serial-error` event and break. -/
def workerIteration (is_connected : Bool) (buffer : List Char)
    (r : ReadResult) : WorkerStep × Bool :=
  if is_connected = false then
    (⟨buffer, [], [], false⟩, is_connected)
  else
    match r with
    | .ok data =>
      if data.isEmpty then (⟨buffer, [], [], true⟩, is_connected)
      else
        let (b, es) := readIteration buffer data
        (⟨b, es, [], true⟩, is_connected)
    | .timedOut => (⟨buffer, [], [], true⟩, is_connected)
    | .err msg =>
      (⟨buffer, [], ["Read error: " ++ msg], false⟩, is_connected)

/-- Decimal integer literal, as accepted by Rust's `i32::from_str` modulo
range: an optional sign followed by at least one digit.  The source never
parses fields; this definition only serves to state the spec's
"parses as an integer" side conditions. -/
def specIsIntField (cs : List Char) : Bool :=
  match cs with
  | [] => false
  | c :: rest =>
    if c = '+' || c = '-' then !rest.isEmpty && rest.all Char.isDigit
    else cs.all Char.isDigit

/-! ## Connection lifecycle

`connect_serial` (main.rs lines 181-271), `disconnect_serial` (275-285),
`is_serial_connected` (289-292).  The shared `SerialState` holds the device
handle slot and the `is_connected` flag; the handle is modelled by the port
name it was opened on.
-/

/-- The managed `SerialState` of main.rs lines 14-17. -/
structure SerialState where
  port : Option String
  is_connected : Bool
deriving DecidableEq, Repr

/-- `connect_serial` (main.rs lines 181-271), with the OS open outcome as
the parameter `openOk`.  Returns the state afterwards and the command
result.  On success the worker is spawned with the loop of
`workerIteration`. -/
def connect_serial (port_name : String) (openOk : Bool) (s : SerialState) :
    SerialState × Except String Unit :=
  if s.is_connected then (s, .error "Already connected to a port")
  else if openOk = false then
    (s, .error ("Failed to open port " ++ port_name))
  else ({ port := some port_name, is_connected := true }, .ok ())

/-- `disconnect_serial` (main.rs lines 275-285): clear `is_connected`, drop
the device handle, return `Ok`. -/
def disconnect_serial (_s : SerialState) : SerialState × Except String Unit :=
  (({ port := none, is_connected := false } : SerialState), .ok ())

/-- `is_serial_connected` (main.rs lines 289-292). -/
def is_serial_connected (s : SerialState) : Bool :=
  s.is_connected

/-- The code keeps no separate `reading_active` flag: the spawned worker's
read loop is gated solely on `is_connected` (main.rs lines 220-223), so
reading is active exactly while connected. -/
def readingActive (s : SerialState) : Bool :=
  s.is_connected

/-! ## Calibration & recording

`save_recording` (main.rs lines 312-380).  The file system is an explicit
environment; the written file is modelled as its filename plus the ordered
row set (the fixed header and annotation columns carry no per-call data).
`f64` arithmetic is modelled over `ℚ`, exact for the operations used.
-/

/-- `SensorSample` (main.rs lines 294-302). -/
structure SensorSample where
  timestamp : Int
  ch0 : Int
  ch1 : Int
  ch2 : Int
  ch3 : Int
  ch4 : Int
deriving DecidableEq, Repr

/-- `CalibrationData` (main.rs lines 304-308). -/
structure CalibrationData where
  baseline : List Int
  maxbend : List Int
deriving DecidableEq, Repr

/-- The `raw` vector of main.rs line 353. -/
def rawChannels (s : SensorSample) : List Int :=
  [s.ch0, s.ch1, s.ch2, s.ch3, s.ch4]

/-- Per-channel normalization (main.rs lines 356-362): `norm` starts at
`0.0` and is only assigned when `maxbend - baseline > 0`, in which case it
is `(raw - baseline) / range` clamped by `.max(0.0).min(1.0)`. -/
def normChannel (raw baseline maxbend : ℚ) : ℚ :=
  let range := maxbend - baseline
  if range > 0 then min (max ((raw - baseline) / range) 0) 1 else 0

/-- `normChannel` on the `i32` channel and calibration values, after the
`as f64` casts of main.rs lines 356-360. -/
def normChannelInt (raw baseline maxbend : Int) : ℚ :=
  normChannel (raw : ℚ) (baseline : ℚ) (maxbend : ℚ)

/-- The `for i in 0..5` normalization loop of main.rs lines 355-363,
unrolled.  `none` models the Rust index-out-of-bounds panic raised when a
calibration vector has fewer than 5 entries. -/
def sampleNorms (s : SensorSample) (c : CalibrationData) : Option (List ℚ) :=
  match c.baseline[0]?, c.baseline[1]?, c.baseline[2]?, c.baseline[3]?,
      c.baseline[4]?, c.maxbend[0]?, c.maxbend[1]?, c.maxbend[2]?,
      c.maxbend[3]?, c.maxbend[4]? with
  | some b0, some b1, some b2, some b3, some b4,
    some m0, some m1, some m2, some m3, some m4 =>
    some [normChannelInt s.ch0 b0 m0, normChannelInt s.ch1 b1 m1,
          normChannelInt s.ch2 b2 m2, normChannelInt s.ch3 b3 m3,
          normChannelInt s.ch4 b4 m4]
  | _, _, _, _, _, _, _, _, _, _ => none

/-- One data row of the CSV (main.rs lines 365-376): timestamp, the 5 raw
values, the 5 normalized values, and the 10 calibration constants.  The
constant annotation columns are omitted as they carry no per-call data. -/
structure RecordRow where
  timestamp : Int
  raw : List Int
  norm : List ℚ
  baselineVals : List Int
  maxbendVals : List Int
deriving DecidableEq, Repr

/-- The row written for one sample.  `none` models the index panic; when
the norms computed, the row also prints `calibration.baseline[0..=4]` and
`calibration.maxbend[0..=4]`, i.e. the first five entries. -/
def rowFor (s : SensorSample) (c : CalibrationData) : Option RecordRow :=
  match sampleNorms s c with
  | none => none
  | some ns =>
    some { timestamp := s.timestamp, raw := rawChannels s, norm := ns,
           baselineVals := c.baseline.take 5,
           maxbendVals := c.maxbend.take 5 }

/-- The row-writing loop of main.rs lines 350-377: one row per sample, in
order; a panic while normalizing any sample aborts the whole call
(`none`). -/
def rowsFor (samples : List SensorSample) (c : CalibrationData) :
    Option (List RecordRow) :=
  match samples with
  | [] => some []
  | s :: rest =>
    match rowFor s c, rowsFor rest c with
    | some row, some rows => some (row :: rows)
    | _, _ => none

/-- File-system outcomes for one `save_recording` call. -/
structure FsEnv where
  appDirOk : Bool
  createDirOk : Bool
  openOk : Bool
deriving DecidableEq, Repr

/-- The filename of main.rs line 334: `{user_id}_{session_id}_{gesture}_{unix_seconds}.csv`. -/
def recordingFileName (user_id session_id gesture : String) (unixSecs : Nat) :
    String :=
  user_id ++ "_" ++ session_id ++ "_" ++ gesture ++ "_" ++ toString unixSecs
    ++ ".csv"

/-- `save_recording` (main.rs lines 312-380).  The outer `Option` models
Rust panic (`none` = index out of bounds while normalizing); the `Except`
carries the command result; the payload is the written file: its name and
its data rows (the header row is always written first, before any row).
No validation of `samples` or `calibration` is performed before the file
is created and the header written. -/
def save_recording (env : FsEnv) (samples : List SensorSample)
    (gesture user_id session_id : String) (c : CalibrationData)
    (unixSecs : Nat) : Option (Except String (String × List RecordRow)) :=
  if env.appDirOk = false then
    some (.error "Failed to get app data directory")
  else if env.createDirOk = false then
    some (.error "Failed to create data directory")
  else if env.openOk = false then
    some (.error "Failed to create file")
  else
    match rowsFor samples c with
    | none => none
    | some rows =>
      some (.ok (recordingFileName user_id session_id gesture unixSecs, rows))

/-! ## Gesture prediction pre-checks

`predict_gesture` (main.rs lines 597-680).  The HTTP interaction is the
parameter `api`; the boolean in the result records whether a network
request was made.
-/

/-- `ApiResponse` (main.rs lines 587-593), sans timing metadata. -/
structure ApiResponse where
  letter : String
  confidence : ℚ
deriving DecidableEq, Repr

/-- The `flex_sensors` conversion of main.rs lines 608-616. -/
def toFlexSensors (samples : List SensorSample) : List (List ℚ) :=
  samples.map (fun s =>
    [(s.ch0 : ℚ), (s.ch1 : ℚ), (s.ch2 : ℚ), (s.ch3 : ℚ), (s.ch4 : ℚ)])

/-- `predict_gesture` (main.rs lines 597-680): reject empty input, then
reject fewer than 50 samples, before building the request; only past both
checks is the API called.  The boolean records whether the request was
sent. -/
def predict_gesture (samples : List SensorSample)
    (api : List (List ℚ) → Except String ApiResponse) :
    Bool × Except String ApiResponse :=
  if samples.isEmpty then (false, .error "No samples provided")
  else if samples.length < 50 then
    (false, .error ("Not enough samples. Need at least 50, got "
      ++ toString samples.length))
  else
    match api (toFlexSensors samples) with
    | .error e => (true, .error ("API request failed: " ++ e))
    | .ok r => (true, .ok r)

/-- `Except` result is an error. -/
def isErr {ε α : Type} : Except ε α → Bool
  | .error _ => true
  | .ok _ => false

/-! ## Pause / resume, modelled from the spec

The Rust backend exposes no pause or resume command; the spec's Connection
Handle nevertheless specifies them (§4.1).  They are modelled here from the
spec's words alone.
-/

/-- The spec's Connection state (§3): device handle, `connected`,
`reading_active`. -/
structure SpecConnState where
  device : Option String
  connected : Bool
  reading_active : Bool
deriving DecidableEq, Repr

/-- Modelled from the spec: `pause()` of §4.1, which is missing from the
Rust source — "toggle `reading_active` without releasing the device
handle; no-ops if already in the target state.  Valid only while
`connected`; calling while disconnected is a no-op, not an error." -/
def spec_pause (s : SpecConnState) : SpecConnState × Except String Unit :=
  if s.connected then ({ s with reading_active := false }, .ok ())
  else (s, .ok ())

/-- Modelled from the spec: `resume()` of §4.1, which is missing from the
Rust source — symmetric to `spec_pause`, setting `reading_active := true`
while connected, a successful no-op while disconnected. -/
def spec_resume (s : SpecConnState) : SpecConnState × Except String Unit :=
  if s.connected then ({ s with reading_active := true }, .ok ())
  else (s, .ok ())

/-! ## Lemmas about line reassembly and frame validation -/

/-- A newline-free chunk followed by one line feed yields exactly that
chunk as the single complete line, and an empty buffer. -/
theorem splitLines_append_newline (cs : List Char) (h : '\n' ∉ cs) :
    splitLines (cs ++ ['\n']) = ([cs], []) := by
  induction cs with
  | nil => rfl
  | cons c rest ih =>
    have hc : c ≠ '\n' := fun hc => h (hc ▸ List.mem_cons_self c rest)
    have hrest : '\n' ∉ rest := fun hm => h (List.mem_cons_of_mem c hm)
    simp only [List.cons_append, splitLines]
    simp [ih hrest, hc]

/-- Line extraction over concatenated input decomposes into extraction on
the first chunk followed by extraction on its residual buffer plus the
second chunk. -/
theorem splitLines_append (x y : List Char) :
    splitLines (x ++ y)
      = ((splitLines x).1 ++ (splitLines ((splitLines x).2 ++ y)).1,
         (splitLines ((splitLines x).2 ++ y)).2) := by
  induction x with
  | nil => simp [splitLines]
  | cons c cs ih =>
    rcases hcs : splitLines cs with ⟨A, r⟩
    rcases hr : splitLines (r ++ y) with ⟨B1, B2⟩
    have hcy : splitLines (cs ++ y) = (A ++ B1, B2) := by
      rw [ih, hcs]; simp [hr]
    by_cases hc : c = '\n'
    · subst hc
      simp only [List.cons_append, splitLines]
      simp [hcy, hcs, hr]
    · cases A with
      | nil =>
        simp only [List.cons_append, splitLines]
        simp only [hcy, hcs, List.nil_append]
        simp only [if_neg hc]
        simp only [splitLines, hr]
        cases B1 <;> simp [hcy, hr, hc]
      | cons l A2 =>
        simp only [List.cons_append, splitLines]
        simp [hcy, hcs, hr, hc]

/-- A line whose trimmed content is nonempty with exactly 6 comma-separated
fields is accepted and emitted as its trimmed content. -/
theorem processLine_of_six (line : List Char) (hne : trimChars line ≠ [])
    (h6 : (splitFields (trimChars line)).length = 6) :
    processLine line = some (trimChars line) := by
  simp [processLine, hne, h6]

/-- A line whose trimmed content does not have exactly 6 comma-separated
fields is discarded (this covers the whitespace-only lines skipped by the
emptiness check as well). -/
theorem processLine_of_not_six (line : List Char)
    (h : (splitFields (trimChars line)).length ≠ 6) :
    processLine line = none := by
  by_cases ht : (trimChars line).isEmpty <;> simp [processLine, ht, h]

/-! ## Claims about the frame reader -/

/-- C1 (counterexample): the claim requires the 5-field protocol variant
to be accepted, but the worker only accepts `parts.len() == 6` (main.rs
line 245).  The line `"440,612,618,548,528\n"` has exactly 5 fields, every
field a decimal integer, yet the worker delivers zero samples for it. -/
theorem claim_C1_counterexample :
    (splitFields ("440,612,618,548,528".toList)).length = 5 ∧
    ((splitFields ("440,612,618,548,528".toList)).all
      (fun f => specIsIntField f)) = true ∧
    workerIteration true [] (.ok ("440,612,618,548,528".toList ++ ['\n']))
      = (⟨[], [], [], true⟩, true) := by
  decide

/-- C1 (amended): the implementation supports only the 6-field
(timestamp-prefixed) protocol variant.  For every input line of exactly 6
comma-separated fields terminated by a line feed, the worker accepts the
frame and delivers exactly one sample to the sink, whose payload is the
trimmed line — carrying the 6 fields in field order — and continues
without error. -/
theorem claim_C1_amended (line : List Char) (h : '\n' ∉ line)
    (hne : trimChars line ≠ [])
    (h6 : (splitFields (trimChars line)).length = 6) :
    workerIteration true [] (.ok (line ++ ['\n']))
      = (⟨[], [trimChars line], [], true⟩, true) := by
  have hsl := splitLines_append_newline line h
  have hpl := processLine_of_six line hne h6
  simp [workerIteration, readIteration, hsl, hpl]

/-- C1 (witness): the amended theorem applied to the 6-field line
`"1000,440,612,618,548,528\n"`. -/
theorem claim_C1_witness :
    workerIteration true []
        (.ok ("1000,440,612,618,548,528".toList ++ ['\n']))
      = (⟨[], ["1000,440,612,618,548,528".toList], [], true⟩, true) :=
  claim_C1_amended ("1000,440,612,618,548,528".toList) (by decide)
    (by decide) (by decide)

/-- C2 (counterexample): the claim requires frames containing a
non-integer field to be discarded, but the worker validates only the field
count, never parsing fields (main.rs lines 244-248).  The 6-field line
`"1,2,3,4,5,x\n"` contains the non-integer field `"x"` and is nevertheless
delivered as a sample. -/
theorem claim_C2_counterexample :
    specIsIntField ("x".toList) = false ∧
    (splitFields ("1,2,3,4,5,x".toList)).length = 6 ∧
    workerIteration true [] (.ok ("1,2,3,4,5,x".toList ++ ['\n']))
      = (⟨[], ["1,2,3,4,5,x".toList], [], true⟩, true) := by
  decide

/-- C2 (amended): for every complete line whose comma-separated field
count differs from 6 — the only validation performed — the worker delivers
zero samples, raises no error, and continues; field contents are never
parsed, so a 6-field line is delivered even when a field is not an
integer. -/
theorem claim_C2_amended (line : List Char) (h : '\n' ∉ line)
    (h6 : (splitFields (trimChars line)).length ≠ 6) :
    workerIteration true [] (.ok (line ++ ['\n']))
      = (⟨[], [], [], true⟩, true) := by
  have hsl := splitLines_append_newline line h
  have hpl := processLine_of_not_six line h6
  simp [workerIteration, readIteration, hsl, hpl]

/-- C2 (witness): the amended theorem applied to the 4-field line
`"1,2,3,4\n"`, which is discarded with the worker continuing. -/
theorem claim_C2_witness :
    workerIteration true [] (.ok ("1,2,3,4".toList ++ ['\n']))
      = (⟨[], [], [], true⟩, true) :=
  claim_C2_amended ("1,2,3,4".toList) (by decide) (by decide)

/-- C5 (counterexample): on a non-timeout read error the worker emits one
`serial-error` event and terminates, but the claim's "connection state
becoming disconnected" fails: the loop never writes `is_connected`, which
stays `true` (second component) after the fatal error. -/
theorem claim_C5_counterexample :
    workerIteration true [] (.err "boom")
      = (⟨[], [], ["Read error: boom"], false⟩, true) := by
  decide

/-- C5 (amended): in each worker iteration a read timeout is recovered
internally — no event, the worker continues — while any other read error
causes exactly one `ReadError` event and termination of the worker; the
`is_connected` flag however remains `true` (the loop never clears it), so
the connection state stays connected until an explicit disconnect. -/
theorem claim_C5_amended (buffer : List Char) (msg : String) :
    workerIteration true buffer .timedOut = (⟨buffer, [], [], true⟩, true) ∧
    workerIteration true buffer (.err msg)
      = (⟨buffer, [], ["Read error: " ++ msg], false⟩, true) := by
  exact ⟨rfl, rfl⟩

/-- C7 (counterexample): buffering across reads does work, but the claim's
scenario reassembles to the 5-field frame `"440,612,618,548,528"`, which
the 6-field filter discards: the two reads `"440,612,"` then
`"618,548,528\n"` yield zero samples, not one. -/
theorem claim_C7_counterexample :
    readIteration [] ("440,612,".toList) = ("440,612,".toList, []) ∧
    readIteration ("440,612,".toList) ("618,548,528\n".toList)
      = ([], []) := by
  decide

/-- C7 (amended): bytes split arbitrarily across successive reads are
reassembled — processing a concatenation of two chunks extracts exactly
the lines of the first chunk, then those of the residual buffer plus the
second chunk, in order — and any trailing partial line is retained for the
next iteration.  A frame split across two reads therefore yields exactly
one sample provided the reassembled line has 6 fields: `"1000,440,612,"`
followed by `"618,548,528\n"` yields the single sample
`"1000,440,612,618,548,528"`, while the claim's 5-field frame is
discarded. -/
theorem claim_C7_amended :
    (∀ (buffer d1 d2 : List Char),
      readIteration buffer (d1 ++ d2)
        = ((readIteration (readIteration buffer d1).1 d2).1,
           (readIteration buffer d1).2
             ++ (readIteration (readIteration buffer d1).1 d2).2)) ∧
    readIteration [] ("1000,440,612,".toList)
      = ("1000,440,612,".toList, []) ∧
    readIteration ("1000,440,612,".toList) ("618,548,528\n".toList)
      = ([], ["1000,440,612,618,548,528".toList]) := by
  refine ⟨?_, by decide, by decide⟩
  intro b d1 d2
  simp only [readIteration]
  rw [← List.append_assoc, splitLines_append (b ++ d1) d2]
  simp [List.filterMap_append]

/-! ## Claims about the connection lifecycle -/

/-- C6: `connect_serial` fails with `AlreadyConnected` whenever a
connection is currently open, leaving the state unchanged; on success it
sets `connected = true` and reading becomes active (the `is_connected`
gate of the spawned worker is set, so worker iterations proceed). -/
theorem claim_C6 (s : SerialState) (port_name : String) (openOk : Bool) :
    (s.is_connected = true →
      connect_serial port_name openOk s
        = (s, .error "Already connected to a port")) ∧
    (s.is_connected = false →
      connect_serial port_name true s
        = (⟨some port_name, true⟩, .ok ()) ∧
      readingActive (connect_serial port_name true s).1 = true ∧
      (workerIteration (connect_serial port_name true s).1.is_connected
        [] .timedOut).1.continues = true) := by
  constructor
  · intro h
    simp [connect_serial, h]
  · intro h
    refine ⟨?_, ?_, ?_⟩ <;> simp [connect_serial, h, readingActive,
      workerIteration]

/-- C6 (witness): rejection at a connected state and success at a
disconnected one. -/
theorem claim_C6_witness :
    connect_serial "COM4" true ⟨some "COM3", true⟩
      = (⟨some "COM3", true⟩, .error "Already connected to a port") ∧
    connect_serial "COM4" true ⟨none, false⟩
      = (⟨some "COM4", true⟩, .ok ()) :=
  ⟨(claim_C6 ⟨some "COM3", true⟩ "COM4" true).1 rfl,
   ((claim_C6 ⟨none, false⟩ "COM4" true).2 rfl).1⟩

/-- C8: `disconnect_serial` is idempotent and never fails: it clears the
reading gate (so the worker stops at its next iteration), releases the
device handle (`port = none`), and sets `connected = false`; calling it
when already disconnected succeeds and leaves the state unchanged. -/
theorem claim_C8 (s : SerialState) (buffer : List Char) (r : ReadResult) :
    disconnect_serial s = (⟨none, false⟩, .ok ()) ∧
    disconnect_serial (disconnect_serial s).1 = disconnect_serial s ∧
    (disconnect_serial s).1.is_connected = false ∧
    (disconnect_serial s).1.port = none ∧
    readingActive (disconnect_serial s).1 = false ∧
    (workerIteration (disconnect_serial s).1.is_connected buffer r).1.continues
      = false ∧
    disconnect_serial ⟨none, false⟩ = (⟨none, false⟩, .ok ()) := by
  exact ⟨rfl, rfl, rfl, rfl, rfl, rfl, rfl⟩

/-- C9 (modelled from the spec — the Rust backend exposes no pause/resume
command): `spec_pause` and `spec_resume` toggle `reading_active` without
releasing the device handle and are idempotent — a second consecutive call
leaves `reading_active` (indeed the whole state) unchanged — and calling
either while disconnected is a successful no-op. -/
theorem claim_C9 (s : SpecConnState) (d : Option String) (ra : Bool) :
    (spec_pause (spec_pause s).1).1 = (spec_pause s).1 ∧
    (spec_resume (spec_resume s).1).1 = (spec_resume s).1 ∧
    (spec_pause s).1.device = s.device ∧
    (spec_resume s).1.device = s.device ∧
    (spec_pause s).2 = .ok () ∧
    (spec_resume s).2 = .ok () ∧
    spec_pause ⟨d, false, ra⟩ = (⟨d, false, ra⟩, .ok ()) ∧
    spec_resume ⟨d, false, ra⟩ = (⟨d, false, ra⟩, .ok ()) := by
  obtain ⟨d0, c, ra0⟩ := s
  cases c <;> simp [spec_pause, spec_resume]

/-! ## Claim about the prediction pre-checks -/

/-- C10: `predict_gesture` returns an error for every input with fewer
than 50 samples (including the empty sequence), and does so before any
network request is made (the request flag is `false`). -/
theorem claim_C10 (samples : List SensorSample)
    (api : List (List ℚ) → Except String ApiResponse)
    (h : samples.length < 50) :
    (predict_gesture samples api).1 = false ∧
    isErr (predict_gesture samples api).2 = true := by
  by_cases he : samples.isEmpty <;>
    simp [predict_gesture, he, h, isErr]

/-- C10 (witness): the empty sample list is rejected without any network
request, for an API stub that would answer. -/
theorem claim_C10_witness :
    (predict_gesture [] (fun _ => Except.ok ⟨"A", 1⟩)).1 = false ∧
    isErr (predict_gesture [] (fun _ => Except.ok ⟨"A", 1⟩)).2 = true :=
  claim_C10 [] (fun _ => Except.ok ⟨"A", 1⟩) (by decide)

/-! ## Lemmas about normalization and the recording writer -/

theorem normChannel_nonneg (r b m : ℚ) : 0 ≤ normChannel r b m := by
  by_cases h : 0 < m - b <;> simp [normChannel, h]

theorem normChannel_le_one (r b m : ℚ) : normChannel r b m ≤ 1 := by
  by_cases h : 0 < m - b <;> simp [normChannel, h]

theorem normChannel_eq_clamp (r b m : ℚ) (h : 0 < m - b) :
    normChannel r b m = min (max ((r - b) / (m - b)) 0) 1 := by
  simp [normChannel, h]

theorem normChannel_of_nonpos (r b m : ℚ) (h : m - b ≤ 0) :
    normChannel r b m = 0 := by
  simp [normChannel, not_lt.2 h]

theorem normChannel_baseline (b m : ℚ) (h : 0 < m - b) :
    normChannel b b m = 0 := by
  simp [normChannel, h]

theorem normChannel_maxbend (b m : ℚ) (h : 0 < m - b) :
    normChannel m b m = 1 := by
  simp [normChannel, h, div_self (ne_of_gt h)]

/-- Degenerate integer calibration: `maxbend ≤ baseline` forces the
normalized value to stay at its initial `0.0`. -/
theorem normChannelInt_of_le (r b m : Int) (h : m ≤ b) :
    normChannelInt r b m = 0 := by
  unfold normChannelInt
  apply normChannel_of_nonpos
  have : (m : ℚ) ≤ (b : ℚ) := by exact_mod_cast h
  linarith

/-- A calibration vector shorter than 5 entries makes the normalization
loop hit a missing index: the sample's row computation panics (`none`). -/
theorem sampleNorms_none_of_short (s : SensorSample) (c : CalibrationData)
    (h : c.baseline.length < 5 ∨ c.maxbend.length < 5) :
    sampleNorms s c = none := by
  rcases h with h | h
  · have h4 : c.baseline[4]? = none := List.getElem?_eq_none (by omega)
    rcases h0 : c.baseline[0]? with _ | b0 <;>
    rcases h1 : c.baseline[1]? with _ | b1 <;>
    rcases h2 : c.baseline[2]? with _ | b2 <;>
    rcases h3 : c.baseline[3]? with _ | b3 <;>
      simp [sampleNorms, h0, h1, h2, h3, h4]
  · have h4 : c.maxbend[4]? = none := List.getElem?_eq_none (by omega)
    rcases h0 : c.baseline[0]? with _ | b0 <;>
    rcases h1 : c.baseline[1]? with _ | b1 <;>
    rcases h2 : c.baseline[2]? with _ | b2 <;>
    rcases h3 : c.baseline[3]? with _ | b3 <;>
    rcases hb4 : c.baseline[4]? with _ | b4 <;>
    rcases hm0 : c.maxbend[0]? with _ | m0 <;>
    rcases hm1 : c.maxbend[1]? with _ | m1 <;>
    rcases hm2 : c.maxbend[2]? with _ | m2 <;>
    rcases hm3 : c.maxbend[3]? with _ | m3 <;>
      simp [sampleNorms, h0, h1, h2, h3, hb4, hm0, hm1, hm2, hm3, h4]

/-! ## Claims about the recording writer -/

/-- C3 (counterexample): the claim requires `commit` on an empty sample
sequence to fail with `InvalidInput` and write no file; `save_recording`
has no such check — it succeeds and writes a header-only file (the row set
is empty). -/
theorem claim_C3_counterexample :
    save_recording ⟨true, true, true⟩ [] "fist" "u1" "s1"
        ⟨[400, 400, 400, 400, 400], [600, 600, 600, 600, 600]⟩ 0
      = some (.ok ("u1_s1_fist_0.csv", [])) := by
  rfl

/-- C3 (amended): `save_recording` performs no input validation.  With an
empty sample sequence it succeeds, creating the file and writing the
header with zero data rows; with a nonempty sample sequence and a
calibration sequence (baseline or maxbend) of fewer than 5 entries it
panics on an out-of-bounds index instead of failing with `InvalidInput` —
after the file has already been created and the header written. -/
theorem claim_C3_amended :
    (∀ (env : FsEnv) (gesture user_id session_id : String)
       (c : CalibrationData) (t : Nat),
      env.appDirOk = true → env.createDirOk = true → env.openOk = true →
      save_recording env [] gesture user_id session_id c t
        = some (.ok (recordingFileName user_id session_id gesture t, []))) ∧
    (∀ (env : FsEnv) (s0 : SensorSample) (rest : List SensorSample)
       (gesture user_id session_id : String) (c : CalibrationData) (t : Nat),
      env.appDirOk = true → env.createDirOk = true → env.openOk = true →
      c.baseline.length < 5 ∨ c.maxbend.length < 5 →
      save_recording env (s0 :: rest) gesture user_id session_id c t
        = none) := by
  constructor
  · intro env gesture user_id session_id c t h1 h2 h3
    simp [save_recording, h1, h2, h3, rowsFor]
  · intro env s0 rest gesture user_id session_id c t h1 h2 h3 hshort
    have hrow : rowFor s0 c = none := by
      simp [rowFor, sampleNorms_none_of_short s0 c hshort]
    simp [save_recording, h1, h2, h3, rowsFor, hrow]

/-- C3 (witness): the amended theorem at a concrete empty recording and at
a concrete one-sample recording with a 4-entry baseline. -/
theorem claim_C3_witness :
    save_recording ⟨true, true, true⟩ [] "g" "u" "s"
        ⟨[1, 2, 3, 4, 5], [6, 7, 8, 9, 10]⟩ 3
      = some (.ok (recordingFileName "u" "s" "g" 3, [])) ∧
    save_recording ⟨true, true, true⟩ [⟨0, 1, 2, 3, 4, 5⟩] "g" "u" "s"
        ⟨[1, 2, 3, 4], [6, 7, 8, 9, 10]⟩ 3
      = none :=
  ⟨claim_C3_amended.1 ⟨true, true, true⟩ "g" "u" "s"
      ⟨[1, 2, 3, 4, 5], [6, 7, 8, 9, 10]⟩ 3 rfl rfl rfl,
   claim_C3_amended.2 ⟨true, true, true⟩ ⟨0, 1, 2, 3, 4, 5⟩ [] "g" "u" "s"
      ⟨[1, 2, 3, 4], [6, 7, 8, 9, 10]⟩ 3 rfl rfl rfl (by norm_num)⟩

/-- C4: for every sample and channel the normalized value written by the
recorder equals `clamp((raw - baseline) / (maxbend - baseline), 0, 1)`: it
is within `[0, 1]`, equals the clamp expression whenever
`maxbend - baseline > 0`, is `0` at `raw = baseline` and `1` at
`raw = maxbend`, and is defined as `0` for any raw value when
`maxbend - baseline ≤ 0`, with the commit still succeeding in the
degenerate case. -/
theorem claim_C4 :
    (∀ r b m : ℚ, 0 ≤ normChannel r b m ∧ normChannel r b m ≤ 1) ∧
    (∀ r b m : ℚ, 0 < m - b →
      normChannel r b m = min (max ((r - b) / (m - b)) 0) 1) ∧
    (∀ r b m : ℚ, m - b ≤ 0 → normChannel r b m = 0) ∧
    (∀ b m : ℚ, 0 < m - b →
      normChannel b b m = 0 ∧ normChannel m b m = 1) ∧
    (∀ (s : SensorSample) (b0 b1 b2 b3 b4 m0 m1 m2 m3 m4 : Int),
      rowFor s ⟨[b0, b1, b2, b3, b4], [m0, m1, m2, m3, m4]⟩
        = some ⟨s.timestamp, rawChannels s,
            [normChannelInt s.ch0 b0 m0, normChannelInt s.ch1 b1 m1,
             normChannelInt s.ch2 b2 m2, normChannelInt s.ch3 b3 m3,
             normChannelInt s.ch4 b4 m4],
            [b0, b1, b2, b3, b4], [m0, m1, m2, m3, m4]⟩) ∧
    (∀ (env : FsEnv) (s : SensorSample) (g u sid : String)
       (b0 b1 b2 b3 b4 m0 m1 m2 m3 m4 : Int) (t : Nat),
      env.appDirOk = true → env.createDirOk = true → env.openOk = true →
      m0 ≤ b0 → m1 ≤ b1 → m2 ≤ b2 → m3 ≤ b3 → m4 ≤ b4 →
      save_recording env [s] g u sid
          ⟨[b0, b1, b2, b3, b4], [m0, m1, m2, m3, m4]⟩ t
        = some (.ok (recordingFileName u sid g t,
            [⟨s.timestamp, rawChannels s, [0, 0, 0, 0, 0],
              [b0, b1, b2, b3, b4], [m0, m1, m2, m3, m4]⟩]))) := by
  refine ⟨fun r b m => ⟨normChannel_nonneg r b m, normChannel_le_one r b m⟩,
    normChannel_eq_clamp, normChannel_of_nonpos,
    fun b m h => ⟨normChannel_baseline b m h, normChannel_maxbend b m h⟩,
    ?_, ?_⟩
  · intro s b0 b1 b2 b3 b4 m0 m1 m2 m3 m4
    simp [rowFor, sampleNorms]
  · intro env s g u sid b0 b1 b2 b3 b4 m0 m1 m2 m3 m4 t he1 he2 he3
      h0 h1 h2 h3 h4
    have hrow : rowFor s ⟨[b0, b1, b2, b3, b4], [m0, m1, m2, m3, m4]⟩
        = some ⟨s.timestamp, rawChannels s, [0, 0, 0, 0, 0],
            [b0, b1, b2, b3, b4], [m0, m1, m2, m3, m4]⟩ := by
      simp [rowFor, sampleNorms, normChannelInt_of_le _ _ _ h0,
        normChannelInt_of_le _ _ _ h1, normChannelInt_of_le _ _ _ h2,
        normChannelInt_of_le _ _ _ h3, normChannelInt_of_le _ _ _ h4]
    simp [save_recording, he1, he2, he3, rowsFor, hrow]

/-- C4 (witness): the clamp formula at `raw = 80, baseline = 50,
maxbend = 150`, the two endpoints, a degenerate channel, and a degenerate
one-sample commit that still succeeds. -/
theorem claim_C4_witness :
    normChannel 80 50 150 = min (max ((80 - 50) / (150 - 50)) 0) 1 ∧
    normChannel 50 50 150 = 0 ∧
    normChannel 150 50 150 = 1 ∧
    normChannel 999 100 100 = 0 ∧
    save_recording ⟨true, true, true⟩ [⟨0, 1, 2, 3, 4, 5⟩] "g" "u" "s"
        ⟨[10, 10, 10, 10, 10], [10, 10, 10, 10, 10]⟩ 7
      = some (.ok (recordingFileName "u" "s" "g" 7,
          [⟨0, [1, 2, 3, 4, 5], [0, 0, 0, 0, 0],
            [10, 10, 10, 10, 10], [10, 10, 10, 10, 10]⟩])) :=
  ⟨claim_C4.2.1 80 50 150 (by norm_num),
   (claim_C4.2.2.2.1 50 150 (by norm_num)).1,
   (claim_C4.2.2.2.1 50 150 (by norm_num)).2,
   claim_C4.2.2.1 999 100 100 (by norm_num),
   claim_C4.2.2.2.2.2 ⟨true, true, true⟩ ⟨0, 1, 2, 3, 4, 5⟩ "g" "u" "s"
     10 10 10 10 10 10 10 10 10 10 7 rfl rfl rfl (le_refl _) (le_refl _)
     (le_refl _) (le_refl _) (le_refl _)⟩
